import Mathlib

/-!
Verification of the metrics-aggregation pipeline specification against the
repository sources.  The repository exposes the test layer
(`flusher_test.go`, `config_test.go`) and the command entry point
(`cmd/veneur/main.go`); the flusher, worker, sink shaper and config loader
bodies are not present, so those operations are modelled from the
specification, with every behavioural choice pinned by the assertions of the
in-repo tests, which are authoritative source code.
-/

namespace Veneur

/-- Metric kinds, after the type names used by `forwardGRPCTestMetrics`
(`HistogramTypeName`, `GaugeTypeName`, `CounterTypeName`, `TimerTypeName`,
`SetTypeName`) and the kind set of the data model. -/
inductive MetricType
  | counter
  | gauge
  | histogram
  | timer
  | set
  | statusCheck
  | event
  deriving DecidableEq, Repr

/-- Scope of a sample: which tier finalizes it (`samplers.LocalOnly`,
`samplers.MixedScope`, `samplers.GlobalOnly` in the tests). -/
inductive MetricScope
  | localOnly
  | mixedScope
  | globalOnly
  deriving DecidableEq, Repr

/-- Value carried by a sample: numeric for counter, gauge, histogram and
timer; an arbitrary string member for set (`Value: "test"` in the tests).
Floating point values are embedded as exact rationals. -/
inductive MetricValue
  | num (q : ℚ)
  | str (s : String)
  deriving DecidableEq, Repr

/-- One ingested observation, after `samplers.UDPMetric` as constructed in
`flusher_test.go` (MetricKey fields `Name`, `Type`, `JoinedTags`, plus
`Tags`, `Value`, `Digest`, `SampleRate`, `Scope`). -/
structure UDPMetric where
  name : String
  type : MetricType
  joinedTags : String := ""
  tags : List String := []
  value : MetricValue
  digest : ℕ := 0
  sampleRate : ℚ := 1
  scope : MetricScope
  deriving DecidableEq, Repr

/-- A finalized flat metric handed to sinks, after `samplers.InterMetric`
as consumed by the tests (`Name`, `Tags`, `Value`; kind is counter- or
gauge-shaped). -/
structure InterMetric where
  name : String
  tags : List String := []
  value : ℚ
  type : MetricType
  deriving DecidableEq, Repr

/-- One telemetry sample emitted by the service about itself, after
`ssf.SSFSample` as inspected by `TestServerFlushGRPCTimeout`
(`Name`, `Tags` map, `Value`). -/
structure TelemetrySample where
  name : String
  tagPairs : List (String × String)
  value : ℚ
  deriving DecidableEq, Repr

/-- Service configuration, restricted to the fields the claims touch
(`Hostname`, `Debug`, `OmitEmptyHostname`, `Interval`, `NumWorkers`,
`Percentiles`, `Aggregates`, `ForwardAddress`, `CountUniqueTimeseries`).
The interval is held in microseconds. -/
structure Config where
  hostname : String := ""
  debug : Bool := false
  omitEmptyHostname : Bool := false
  intervalMicroseconds : ℕ := 0
  numWorkers : ℕ := 0
  percentiles : List ℚ := []
  aggregates : List String := []
  forwardAddress : String := ""
  countUniqueTimeseries : Bool := false
  deriving DecidableEq, Repr

/-- The zero-value configuration, the Go zero struct `Config{}` asserted by
`TestReadBadConfig`. -/
def Config.zero : Config := {}

/-- First test metric of `forwardGRPCTestMetrics`: a MixedScope histogram. -/
def histogramMixedMetric : UDPMetric :=
  { name := "test.grpc.histogram", type := .histogram, value := .num 20,
    digest := 12345, sampleRate := 1, scope := .mixedScope }

/-- Second test metric: a GlobalOnly histogram. -/
def histogramGlobalMetric : UDPMetric :=
  { name := "test.grpc.histogram_global", type := .histogram, value := .num 20,
    digest := 12345, sampleRate := 1, scope := .globalOnly }

/-- Third test metric: a GlobalOnly gauge. -/
def gaugeGlobalMetric : UDPMetric :=
  { name := "test.grpc.gauge", type := .gauge, value := .num 1,
    sampleRate := 1, scope := .globalOnly }

/-- Fourth test metric: a GlobalOnly counter. -/
def counterGlobalMetric : UDPMetric :=
  { name := "test.grpc.counter", type := .counter, value := .num 2,
    sampleRate := 1, scope := .globalOnly }

/-- Fifth test metric: a MixedScope timer. -/
def timerMixedMetric : UDPMetric :=
  { name := "test.grpc.timer_mixed", type := .timer, value := .num 100,
    digest := 12345, sampleRate := 1, scope := .mixedScope }

/-- Sixth test metric: a GlobalOnly timer. -/
def timerGlobalMetric : UDPMetric :=
  { name := "test.grpc.timer", type := .timer, value := .num 100,
    digest := 12345, sampleRate := 1, scope := .globalOnly }

/-- Seventh test metric: a GlobalOnly set. -/
def setGlobalMetric : UDPMetric :=
  { name := "test.grpc.set", type := .set, value := .str "test",
    sampleRate := 1, scope := .globalOnly }

/-- Eighth test metric: a MixedScope counter named `test.grpc.counter.local`. -/
def counterLocalMetric : UDPMetric :=
  { name := "test.grpc.counter.local", type := .counter, value := .num 100,
    digest := 12345, sampleRate := 1, scope := .mixedScope }

/-- The eight test metrics of `forwardGRPCTestMetrics` in `flusher_test.go`,
in source order. -/
def forwardGRPCTestMetrics : List UDPMetric :=
  [histogramMixedMetric, histogramGlobalMetric, gaugeGlobalMetric,
   counterGlobalMetric, timerMixedMetric, timerGlobalMetric,
   setGlobalMetric, counterLocalMetric]

/-- Modelled from the spec: the local-instance test configuration
(`localConfig()` with `ForwardAddress` set, as in `TestServerFlushGRPC`);
the helper body is not under `src/`.  Only the presence of a forward
address and the default ten-second interval matter to the claims. -/
def localTestConfig : Config :=
  { hostname := "localhost", intervalMicroseconds := 10000000,
    numWorkers := 1, percentiles := [1/2],
    aggregates := ["min", "max", "count"],
    forwardAddress := "localhost:8128" }

/-- Modelled from the spec: the global-instance test configuration of
`TestGlobalAcceptsHistogramsOverUDP` (`globalConfig()` with
`Percentiles = []`, `Aggregates = ["min"]`, no forward address); the
helper body is not under `src/`. -/
def globalTestConfig : Config :=
  { hostname := "localhost", intervalMicroseconds := 10000000,
    numWorkers := 1, percentiles := [], aggregates := ["min"],
    forwardAddress := "" }

/-- Modelled from the spec: the flush-controller decision of which samples
contribute a forwarded aggregate (the flusher body is not under `src/`).
The scope partition of the flush cycle sends GlobalOnly samples to the
global instance, and MixedScope samples forward a partial in addition to
local finalization, exactly as the scope semantics of the spec state,
with one exception pinned by `TestServerFlushGRPC`: the MixedScope
counter `test.grpc.counter.local` is asserted not to be received by the
forwarder, so MixedScope counters are finalized locally only. -/
def isForwarded (m : UDPMetric) : Bool :=
  match m.scope with
  | .globalOnly => true
  | .mixedScope => !(m.type == .counter)
  | .localOnly => false

/-- Modelled from the spec: which samples contribute to the locally
finalized output of the flush cycle.  GlobalOnly samples are never
finalized on a forwarding local instance; LocalOnly and MixedScope
samples are. -/
def isLocallyFinalized (m : UDPMetric) : Bool :=
  match m.scope with
  | .globalOnly => false
  | .mixedScope => true
  | .localOnly => true

/-- Modelled from the spec: the samples whose aggregates are assembled for
forwarding in one flush.  An empty `forward_address` disables forwarding
entirely. -/
def forwardedSamples (cfg : Config) (ms : List UDPMetric) : List UDPMetric :=
  if cfg.forwardAddress = "" then [] else ms.filter isForwarded

/-- Modelled from the spec: the samples finalized locally in one flush.
When forwarding is disabled (empty `forward_address`, the global-instance
case) every sample is finalized locally. -/
def localSamples (cfg : Config) (ms : List UDPMetric) : List UDPMetric :=
  if cfg.forwardAddress = "" then ms else ms.filter isLocallyFinalized

/-- Insert a rational into a sorted list, keeping it sorted. -/
def insertSorted (x : ℚ) : List ℚ → List ℚ
  | [] => [x]
  | y :: ys => if x ≤ y then x :: y :: ys else y :: insertSorted x ys

/-- Insertion sort over rationals, used to answer rank queries against the
exact value model of the rank sketch. -/
def sortRat (vs : List ℚ) : List ℚ := vs.foldr insertSorted []

/-- Smallest value of a nonempty list (0 on the empty list, which the
flush path never queries because empty aggregators emit nothing). -/
def listMin : List ℚ → ℚ
  | [] => 0
  | v :: vs => vs.foldl min v

/-- Largest value of a nonempty list (0 on the empty list). -/
def listMax : List ℚ → ℚ
  | [] => 0
  | v :: vs => vs.foldl max v

/-- Sum of a list of rationals. -/
def listSum (vs : List ℚ) : ℚ := vs.foldl (fun a b => a + b) 0

/-- Modelled from the spec: a rank query with linear interpolation between
adjacent order statistics; p = 0 answers the minimum and p = 1 the
maximum.  The in-repo tests never observe a fractional rank, so the exact
sorted-value model stands in for the rank sketch. -/
def percentileValue (vs : List ℚ) (p : ℚ) : ℚ :=
  match sortRat vs with
  | [] => 0
  | v :: rest =>
    let sorted := v :: rest
    let rank : ℚ := p * (sorted.length - 1)
    let i : ℕ := rank.floor.toNat
    let lo := sorted.getD i v
    let hi := sorted.getD (i + 1) lo
    lo + (rank - (i : ℚ)) * (hi - lo)

/-- Modelled from the spec: the finalized value of one configured
histogram aggregate over the exact list of ingested values.  Unknown
aggregate names yield nothing. -/
def aggValue (agg : String) (vs : List ℚ) : Option ℚ :=
  match agg with
  | "min" => some (listMin vs)
  | "max" => some (listMax vs)
  | "sum" => some (listSum vs)
  | "avg" => some (listSum vs / (vs.length : ℚ))
  | "count" => some ((vs.length : ℕ) : ℚ)
  | "median" => some (percentileValue vs (1 / 2))
  | _ => none

/-- Suffix of the InterMetric name for a configured percentile p, the
string p times one hundred followed by the word percentile. -/
def percentileSuffix (p : ℚ) : String := toString (p * 100).num ++ "percentile"

/-- Modelled from the spec: histogram expansion at local finalization.  A
histogram with no ingested values emits nothing; otherwise one
InterMetric per configured aggregate named `name.<agg>` and one per
configured percentile. -/
def flushHistogram (name : String) (tags : List String) (aggs : List String)
    (pcts : List ℚ) (vs : List ℚ) : List InterMetric :=
  match vs with
  | [] => []
  | _ :: _ =>
    (aggs.filterMap fun a =>
      (aggValue a vs).map fun v =>
        { name := name ++ "." ++ a, tags := tags, value := v,
          type := MetricType.gauge }) ++
    pcts.map fun p =>
      { name := name ++ "." ++ percentileSuffix p, tags := tags,
        value := percentileValue vs p, type := MetricType.gauge }

/-- Numeric value of a sample, 0 for a string-valued set member. -/
def UDPMetric.numValue (m : UDPMetric) : ℚ :=
  match m.value with
  | .num q => q
  | .str _ => 0

/-- Modelled from the spec: local finalization of the aggregator fed by a
single sample.  Counters emit their rate-scaled sum, gauges their last
value, sets one gauge with the cardinality estimate, histograms and
timers their configured aggregate and percentile expansion; status checks
and events emit no InterMetric here. -/
def flushMetricLocal (cfg : Config) (m : UDPMetric) : List InterMetric :=
  match m.type with
  | .counter =>
    [{ name := m.name, tags := m.tags, value := m.numValue / m.sampleRate,
       type := MetricType.counter }]
  | .gauge =>
    [{ name := m.name, tags := m.tags, value := m.numValue,
       type := MetricType.gauge }]
  | .set =>
    [{ name := m.name, tags := m.tags, value := 1, type := MetricType.gauge }]
  | .histogram =>
    flushHistogram m.name m.tags cfg.aggregates cfg.percentiles [m.numValue]
  | .timer =>
    flushHistogram m.name m.tags cfg.aggregates cfg.percentiles [m.numValue]
  | .statusCheck => []
  | .event => []

/-- Outcome of the forward RPC of one flush interval, after the error
taxonomy of the spec (`ok` carries the accepted count of the stream
reply, the failures are counted and dropped). -/
inductive ForwardResult
  | ok (acceptedCount : ℕ)
  | deadlineExceeded
  | unreachable
  deriving DecidableEq, Repr

/-- Modelled from the spec: whether the forward RPC misses its deadline.
The deadline budget of the RPC is the flush interval, so a forwarder
that needs longer than the interval exceeds it (both in microseconds). -/
def forwardDeadlineExceeded (intervalMicros forwarderDelayMicros : ℕ) : Bool :=
  intervalMicros < forwarderDelayMicros

/-- Modelled from the spec: telemetry of the forward path.  A missed
deadline emits exactly one sample `forward.error_total` tagged
cause deadline_exceeded with value 1; an unreachable forwarder is
counted under its own cause; success emits nothing. -/
def forwardErrorTelemetry : ForwardResult → List TelemetrySample
  | .ok _ => []
  | .deadlineExceeded =>
    [{ name := "forward.error_total",
       tagPairs := [("cause", "deadline_exceeded")], value := 1 }]
  | .unreachable =>
    [{ name := "forward.error_total",
       tagPairs := [("cause", "unreachable")], value := 1 }]

/-- Result of one flush interval: the locally finalized batch handed to
the sink router, the aggregates assembled for forwarding, the aggregates
that actually reached the global instance, any state retained for a
retry (always empty: forwarding is at-most-once), and the telemetry
emitted by the forward path. -/
structure FlushOutcome where
  localMetrics : List InterMetric
  forwardedAssembled : List UDPMetric
  deliveredToGlobal : List UDPMetric
  retainedForRetry : List UDPMetric
  telemetry : List TelemetrySample
  deriving DecidableEq, Repr

/-- Modelled from the spec: one flush interval of the flush controller
(the flusher body is not under `src/`).  The snapshot is partitioned by
scope, the local half is expanded into InterMetrics, the forwarded half
is delivered only when the RPC succeeds, and a failed RPC drops the
aggregates of the interval without retry or buffering while emitting its
error telemetry. -/
def flushCycle (cfg : Config) (res : ForwardResult) (ms : List UDPMetric) :
    FlushOutcome :=
  let fwd := forwardedSamples cfg ms
  { localMetrics := ((localSamples cfg ms).map (flushMetricLocal cfg)).flatten
    forwardedAssembled := fwd
    deliveredToGlobal := match res with
      | .ok _ => fwd
      | _ => []
    retainedForRetry := []
    telemetry := forwardErrorTelemetry res }

/-- Names collected by the forward-test server from the metric stream it
receives in one flush, one per distinct metric name, as in
`TestServerFlushGRPC`. -/
def receivedForwardNames (out : FlushOutcome) : List String :=
  (out.deliveredToGlobal.map UDPMetric.name).dedup

/-- Modelled from the spec: the cardinality sketch over digests (the
HyperLogLog of the worker is modelled exactly: the estimate is the number
of distinct inserted digests, and merging is union). -/
structure MTSSketch where
  members : List ℕ
  deriving DecidableEq, Repr

/-- The fresh, empty sketch. -/
def MTSSketch.empty : MTSSketch := ⟨[]⟩

/-- Insert one digest into the sketch. -/
def MTSSketch.Insert (s : MTSSketch) (d : ℕ) : MTSSketch := ⟨d :: s.members⟩

/-- Cardinality estimate of the sketch: the number of distinct digests. -/
def MTSSketch.Estimate (s : MTSSketch) : ℕ := s.members.dedup.length

/-- Union merge of two sketches. -/
def MTSSketch.Merge (a b : MTSSketch) : MTSSketch := ⟨a.members ++ b.members⟩

/-- Modelled from the spec: the slice of worker state the claims touch,
the per-flush unique-timeseries sketch `uniqueMTS` (the worker body is
not under `src/`; the aggregator map is carried by the flush model
above). -/
structure Worker where
  uniqueMTS : MTSSketch
  deriving DecidableEq, Repr

/-- A freshly started worker with an empty sketch. -/
def Worker.new : Worker := ⟨MTSSketch.empty⟩

/-- Modelled from the spec: `Worker.SampleTimeseries` tallies the digest
of the sample into the per-worker unique-MTS sketch only; it does not
aggregate. -/
def Worker.SampleTimeseries (w : Worker) (m : UDPMetric) : Worker :=
  ⟨w.uniqueMTS.Insert m.digest⟩

/-- Modelled from the spec: the flush of one worker reports the sketch
estimate and swaps in a fresh empty sketch. -/
def Worker.Flush (w : Worker) : ℕ × Worker :=
  (w.uniqueMTS.Estimate, ⟨MTSSketch.empty⟩)

/-- Modelled from the spec: `Server.tallyTimeseries` merges the sketches
of all workers into one and reports the estimate of the union, as pinned
by `TestTallyTimeseries` (the same digest tallied in ten workers plus a
second digest in one worker yields a summary of two, ruling out a
per-worker sum). -/
def tallyTimeseries (ws : List Worker) : ℕ :=
  (ws.foldl (fun acc w => acc.Merge w.uniqueMTS) MTSSketch.empty).Estimate

/-- The sample of `TestFlushResetsWorkerUniqueMTS` and
`TestTallyTimeseries`, a LocalOnly histogram named a.b.c, with a chosen
digest. -/
def abcHistogram (d : ℕ) : UDPMetric :=
  { name := "a.b.c", type := .histogram, value := .num 0, digest := d,
    scope := .localOnly }

/-- Character-list test that the first list leads the second one. -/
def chStarts : List Char → List Char → Bool
  | [], _ => true
  | _ :: _, [] => false
  | p :: ps, c :: cs => p == c && chStarts ps cs

/-- String test that p starts s, used by the leading-substring tag
matcher. -/
def strStarts (p s : String) : Bool := chStarts p.data s.data

/-- Kinds of tag matcher the claims exercise: exact equality and leading
substring (the regex kind is outside the embedding and unused by the
claims). -/
inductive TagMatcherKind
  | exactKind
  | leadingKind
  deriving DecidableEq, Repr

/-- A tag matcher, after `matcher.TagMatcherConfig` with a kind and a
value. -/
structure TagMatcher where
  kind : TagMatcherKind
  value : String
  deriving DecidableEq, Repr

/-- Whether a tag matcher matches one tag. -/
def TagMatcher.matches (tm : TagMatcher) (tag : String) : Bool :=
  match tm.kind with
  | .exactKind => tag == tm.value
  | .leadingKind => strStarts tm.value tag

/-- Per-sink shaping limits, after the channel-sink configuration of
`TestFlush` (`MaxNameLength`, `MaxTags`, `MaxTagLength`, `StripTags`);
a zero limit disables the corresponding check. -/
structure SinkShapeConfig where
  maxNameLength : ℕ := 0
  maxTags : ℕ := 0
  maxTagLength : ℕ := 0
  stripTags : List TagMatcher := []
  deriving DecidableEq, Repr

/-- Status of one metric after per-sink shaping, matching the status tags
of the `flushed_metrics` telemetry. -/
inductive ShapeStatus
  | flushed
  | skipped
  | maxNameLengthDrop
  | maxTagsDrop
  | maxTagLengthDrop
  deriving DecidableEq, Repr

/-- Modelled from the spec: per-sink shaping of one InterMetric, in the
fixed order StripTags, then MaxNameLength, then MaxTags, then
MaxTagLength (the shaper body is not under `src/`; the order is pinned
by the `TestFlush` subtests).  A dropped metric yields no output and the
reason of the first failing check; a kept metric is emitted with its
stripped tag list. -/
def shapeMetric (cfg : SinkShapeConfig) (m : InterMetric) :
    Option InterMetric × ShapeStatus :=
  let keptTags := m.tags.filter fun t => !(cfg.stripTags.any (·.matches t))
  if 0 < cfg.maxNameLength ∧ cfg.maxNameLength < m.name.length then
    (none, .maxNameLengthDrop)
  else if 0 < cfg.maxTags ∧ cfg.maxTags < keptTags.length then
    (none, .maxTagsDrop)
  else if 0 < cfg.maxTagLength ∧ keptTags.any fun t =>
      decide (cfg.maxTagLength < t.length) then
    (none, .maxTagLengthDrop)
  else
    (some { m with tags := keptTags }, .flushed)

/-- Count of the metrics of one batch that shaping resolves to the given
status at one sink, the value of the per-status `flushed_metrics`
counter of that flush. -/
def flushedMetricsCount (cfg : SinkShapeConfig) (batch : List InterMetric)
    (s : ShapeStatus) : ℕ :=
  (batch.filter fun m => (shapeMetric cfg m).2 == s).length

/-- The channel-sink shaping configuration of `TestFlush`: name and tag
length limits of eleven, at most two tags, and a strip rule for tags
that lead with foo. -/
def channelSinkShape : SinkShapeConfig :=
  { maxNameLength := 11, maxTags := 2, maxTagLength := 11,
    stripTags := [{ kind := .leadingKind, value := "foo" }] }

/-- Configuration input as seen after YAML scanning: either the document
is malformed, or it is a well-formed mapping of key strings to scalar
value strings. -/
inductive YamlInput
  | malformed
  | wellFormed (entries : List (String × String))
  deriving DecidableEq, Repr

/-- Errors of config reading, after the taxonomy of the spec: the
strictness error `UnknownConfigKeys` carrying the offending names, a
document parse failure, and an io failure. -/
inductive ConfigError
  | unknownConfigKeys (keys : List String)
  | parseFailure
  | ioFailure
  deriving DecidableEq, Repr

/-- The configuration keys the model recognizes, after the key list of
the spec. -/
def knownConfigKeys : List String :=
  ["hostname", "omit_empty_hostname", "interval", "num_workers",
   "percentiles", "aggregates", "forward_address", "metric_sinks",
   "span_sinks", "sources", "metric_sink_routing",
   "features", "count_unique_timeseries", "statsd_listen_addresses",
   "debug"]

/-- Modelled from the spec: populate one recognized scalar field of the
config from one key-value entry; unrecognized keys change nothing (they
are reported separately). -/
def applyConfigKey (c : Config) (kv : String × String) : Config :=
  if kv.1 = "hostname" then { c with hostname := kv.2 }
  else if kv.1 = "forward_address" then { c with forwardAddress := kv.2 }
  else if kv.1 = "debug" then { c with debug := kv.2 == "true" }
  else if kv.1 = "omit_empty_hostname" then
    { c with omitEmptyHostname := kv.2 == "true" }
  else if kv.1 = "count_unique_timeseries" then
    { c with countUniqueTimeseries := kv.2 == "true" }
  else c

/-- Modelled from the spec: `readConfig` (the loader body is not under
`src/`).  A malformed document returns the zero-value config with a
parse failure, as pinned by `TestReadBadConfig`.  A well-formed document
populates every recognized key and, when unknown keys are present,
additionally returns the recoverable `UnknownConfigKeys` error carrying
their names while keeping the populated config, as pinned by
`TestReadUnknownKeysConfig`. -/
def readConfig : YamlInput → Config × Option ConfigError
  | .malformed => (Config.zero, some .parseFailure)
  | .wellFormed entries =>
    (entries.foldl applyConfigKey Config.zero,
      let unknown :=
        (entries.map Prod.fst).filter fun k => !(knownConfigKeys.contains k)
      if unknown.isEmpty then none else some (.unknownConfigKeys unknown))

/-- Whether a config-read error is fatal, embedded from the error branch
of `main` in `cmd/veneur/main.go`: an `UnknownConfigKeys` error is fatal
only when strict validation was requested, every other error is fatal,
and no error is never fatal. -/
def isFatalConfigError (e : Option ConfigError)
    (validateConfigStrict : Bool) : Bool :=
  match e with
  | none => false
  | some (.unknownConfigKeys _) => validateConfigStrict
  | some _ => true

/-- The document of `TestReadUnknownKeysConfig`: an unknown key
no_such_key and the recognized key hostname set to foobar. -/
def unknownKeysDocument : YamlInput :=
  .wellFormed [("no_such_key", "1"), ("hostname", "foobar")]

/-- The configuration of `TestServerFlushGRPCBadAddress`: the local test
configuration with the unreachable forward address bad-address:123. -/
def badAddressConfig : Config :=
  { localTestConfig with forwardAddress := "bad-address:123" }

/-- The MixedScope counter named counter ingested by
`TestServerFlushGRPCBadAddress`. -/
def counterMixedMetric : UDPMetric :=
  { name := "counter", type := .counter, value := .num 20, digest := 12345,
    sampleRate := 1, scope := .mixedScope }

/-- The MixedScope histogram named histo with value 20 ingested by
`TestGlobalAcceptsHistogramsOverUDP`. -/
def histoMetric : UDPMetric :=
  { name := "histo", type := .histogram, value := .num 20, digest := 12345,
    sampleRate := 1, scope := .mixedScope }

/-- The metric of the `WithMaxTagsAndDroppedTag` subtest of `TestFlush`:
three tags of which the first matches the strip rule. -/
def stripSavesMaxTagsMetric : InterMetric :=
  { name := "test.metric",
    tags := ["foo:value1", "key2:value2", "key3:value3"], value := 1,
    type := .counter }

/-- The metric of the `WithMaxTagLengthAndDroppedTag` subtest of
`TestFlush`: its only over-length tag matches the strip rule. -/
def stripSavesTagLengthMetric : InterMetric :=
  { name := "test.metric",
    tags := ["foo:longvalue1", "key2:value2", "key3:value3"], value := 1,
    type := .counter }

/-- C1 counterexample: the claim that every MixedScope sample contributes
to the forwarded aggregates fails on the code.  The MixedScope counter
`test.grpc.counter.local` of `forwardGRPCTestMetrics` is finalized
locally but is absent from the forwarded half of the flush, exactly as
`TestServerFlushGRPC` asserts by expecting seven forwarded names. -/
theorem mixedScope_forwarded_cex :
    counterLocalMetric.scope = MetricScope.mixedScope ∧
    counterLocalMetric ∈ forwardGRPCTestMetrics ∧
    counterLocalMetric ∉ forwardedSamples localTestConfig forwardGRPCTestMetrics ∧
    counterLocalMetric ∈ localSamples localTestConfig forwardGRPCTestMetrics := by
  decide

/-- C1 (amended): on an instance with a configured forward address, every
ingested MixedScope sample contributes to the locally finalized output of
the flush, and it contributes to the forwarded aggregates of the same
flush exactly when it is not a counter, the one exception the tests
force. -/
theorem mixedScope_partition_amended (cfg : Config) (ms : List UDPMetric)
    (m : UDPMetric) (hmem : m ∈ ms)
    (hscope : m.scope = MetricScope.mixedScope)
    (hfwd : cfg.forwardAddress ≠ "") :
    m ∈ localSamples cfg ms ∧
    (m ∈ forwardedSamples cfg ms ↔ m.type ≠ MetricType.counter) := by
  unfold localSamples forwardedSamples
  rw [if_neg hfwd, if_neg hfwd]
  refine ⟨List.mem_filter.mpr ⟨hmem, ?_⟩, ?_⟩
  · simp [isLocallyFinalized, hscope]
  · rw [List.mem_filter]
    simp [isForwarded, hscope, hmem]

/-- C1 witness: the amended partition at the MixedScope histogram
`test.grpc.histogram` of the test inputs, which lands in both halves. -/
theorem mixedScope_partition_amended_witness :
    histogramMixedMetric ∈ localSamples localTestConfig forwardGRPCTestMetrics ∧
    (histogramMixedMetric ∈ forwardedSamples localTestConfig forwardGRPCTestMetrics ↔
      histogramMixedMetric.type ≠ MetricType.counter) :=
  mixedScope_partition_amended localTestConfig forwardGRPCTestMetrics
    histogramMixedMetric (by decide) (by decide) (by decide)

/-- C2: flushing the eight test metrics on a local instance with a
configured forward address delivers to the forwarder exactly the seven
expected names of `TestServerFlushGRPC`, in some order, and
`test.grpc.counter.local` is not among them. -/
theorem forwardGRPC_names_exactly_seven :
    List.Perm
      (receivedForwardNames
        (flushCycle localTestConfig (ForwardResult.ok 7) forwardGRPCTestMetrics))
      ["test.grpc.histogram", "test.grpc.histogram_global", "test.grpc.timer",
       "test.grpc.timer_mixed", "test.grpc.counter", "test.grpc.gauge",
       "test.grpc.set"] ∧
    "test.grpc.counter.local" ∉
      receivedForwardNames
        (flushCycle localTestConfig (ForwardResult.ok 7) forwardGRPCTestMetrics) := by
  decide

/-- C3: a 20-microsecond interval against a forwarder that needs 500
milliseconds misses the forward deadline, and the flush of the test
metrics then emits exactly one telemetry sample `forward.error_total`
tagged cause deadline_exceeded with value 1, delivers nothing to the
global instance, and retains nothing for a retry. -/
theorem forward_timeout_telemetry_once :
    forwardDeadlineExceeded 20 500000 = true ∧
    (flushCycle { localTestConfig with intervalMicroseconds := 20 }
        ForwardResult.deadlineExceeded forwardGRPCTestMetrics).telemetry =
      [{ name := "forward.error_total",
         tagPairs := [("cause", "deadline_exceeded")], value := 1 }] ∧
    (flushCycle { localTestConfig with intervalMicroseconds := 20 }
        ForwardResult.deadlineExceeded forwardGRPCTestMetrics).deliveredToGlobal = [] ∧
    (flushCycle { localTestConfig with intervalMicroseconds := 20 }
        ForwardResult.deadlineExceeded forwardGRPCTestMetrics).retainedForRetry = [] := by
  decide

/-- C4: with the unreachable forward address bad-address:123, flushing the
MixedScope histogram and the MixedScope counter named counter still
produces at least one locally finalized InterMetric for the channel sink,
and the local batch is identical to the one a successful forward would
produce, so local finalization is unaffected by forwarder
unreachability (the flush is a total function of its inputs: there is no
abnormal termination to model). -/
theorem bad_address_local_flush_unaffected :
    (flushCycle badAddressConfig ForwardResult.unreachable
        [histogramMixedMetric, counterMixedMetric]).localMetrics ≠ [] ∧
    ∀ res : ForwardResult,
      (flushCycle badAddressConfig res
          [histogramMixedMetric, counterMixedMetric]).localMetrics =
        (flushCycle badAddressConfig (ForwardResult.ok 2)
          [histogramMixedMetric, counterMixedMetric]).localMetrics :=
  ⟨by decide, fun _ => rfl⟩

/-- C5: a global instance configured with no percentiles and the single
aggregate min, after ingesting one MixedScope histogram named histo with
value 20, flushes exactly one InterMetric, named histo.min with
value 20. -/
theorem global_histogram_min_flush :
    (flushCycle globalTestConfig (ForwardResult.ok 0) [histoMetric]).localMetrics =
      [{ name := "histo.min", tags := [], value := 20,
         type := MetricType.gauge }] := by
  decide

/-- C6: a worker whose unique-MTS sketch is fresh estimates exactly one
unique timeseries after tallying one sample, and after its flush the
swapped-in sketch estimates zero. -/
theorem flush_resets_worker_uniqueMTS (w : Worker) (m : UDPMetric)
    (h : w.uniqueMTS = MTSSketch.empty) :
    (w.SampleTimeseries m).uniqueMTS.Estimate = 1 ∧
    ((w.SampleTimeseries m).Flush.2).uniqueMTS.Estimate = 0 := by
  obtain ⟨s⟩ := w
  cases h
  exact ⟨rfl, rfl⟩

/-- C6 witness: the reset behaviour at a fresh worker tallying the a.b.c
histogram of digest one. -/
theorem flush_resets_worker_uniqueMTS_witness :
    ((Worker.new.SampleTimeseries (abcHistogram 1)).uniqueMTS.Estimate = 1 ∧
     ((Worker.new.SampleTimeseries (abcHistogram 1)).Flush.2).uniqueMTS.Estimate = 0) :=
  flush_resets_worker_uniqueMTS Worker.new (abcHistogram 1) rfl

/-- C7 counterexample: the claim fails when the one sample ingested into
each of the two workers is the same sample, as in
`TestFlushResetsWorkerUniqueMTS`.  The summary merges the per-worker
sketches by union, so two workers that both tallied the digest-one
sample summarize to one unique timeseries, not two. -/
theorem tally_same_sample_two_workers_cex :
    tallyTimeseries
      [Worker.new.SampleTimeseries (abcHistogram 1),
       Worker.new.SampleTimeseries (abcHistogram 1)] = 1 ∧
    tallyTimeseries
      [Worker.new.SampleTimeseries (abcHistogram 1),
       Worker.new.SampleTimeseries (abcHistogram 1)] ≠ 2 := by
  decide

/-- C7 (amended): with two workers that each tally one sample, the
unique-timeseries summary of the server equals two exactly when the two
samples carry distinct digests (the summary is the cardinality of the
union of the per-worker sketches, as `TestTallyTimeseries` pins). -/
theorem tally_two_workers_distinct_digests (d : ℕ) (e : ℕ) (h : d ≠ e) :
    tallyTimeseries
      [Worker.new.SampleTimeseries (abcHistogram d),
       Worker.new.SampleTimeseries (abcHistogram e)] = 2 := by
  have hd : ([d, e] : List ℕ).dedup = [d, e] := by
    rw [List.dedup_cons_of_not_mem (by simp [h]),
      List.dedup_cons_of_not_mem (List.not_mem_nil e), List.dedup_nil]
  simp [tallyTimeseries, MTSSketch.Merge, MTSSketch.empty, MTSSketch.Estimate,
    Worker.new, Worker.SampleTimeseries, MTSSketch.Insert, abcHistogram, hd]

/-- C7 witness: the amended summary at the digests one and two. -/
theorem tally_two_workers_distinct_digests_witness :
    tallyTimeseries
      [Worker.new.SampleTimeseries (abcHistogram 1),
       Worker.new.SampleTimeseries (abcHistogram 2)] = 2 :=
  tally_two_workers_distinct_digests 1 2 (by decide)

/-- C8: shaping strips tags before applying the limits, so a tag matching
the strip rule can save a metric.  Under the channel-sink limits of
`TestFlush`, the metric whose three tags include the stripped foo:value1
is flushed with the remaining two tags and counts one under flushed and
zero under every drop reason, and the metric whose only over-length tag
foo:longvalue1 matches the strip rule is likewise flushed with the
remaining tags. -/
theorem shaping_strip_before_limits :
    shapeMetric channelSinkShape stripSavesMaxTagsMetric =
      (some { stripSavesMaxTagsMetric with
                tags := ["key2:value2", "key3:value3"] },
       ShapeStatus.flushed) ∧
    flushedMetricsCount channelSinkShape [stripSavesMaxTagsMetric]
      ShapeStatus.flushed = 1 ∧
    flushedMetricsCount channelSinkShape [stripSavesMaxTagsMetric]
      ShapeStatus.maxNameLengthDrop = 0 ∧
    flushedMetricsCount channelSinkShape [stripSavesMaxTagsMetric]
      ShapeStatus.maxTagsDrop = 0 ∧
    flushedMetricsCount channelSinkShape [stripSavesMaxTagsMetric]
      ShapeStatus.maxTagLengthDrop = 0 ∧
    shapeMetric channelSinkShape stripSavesTagLengthMetric =
      (some { stripSavesTagLengthMetric with
                tags := ["key2:value2", "key3:value3"] },
       ShapeStatus.flushed) ∧
    flushedMetricsCount channelSinkShape [stripSavesTagLengthMetric]
      ShapeStatus.flushed = 1 ∧
    flushedMetricsCount channelSinkShape [stripSavesTagLengthMetric]
      ShapeStatus.maxTagLengthDrop = 0 := by
  decide

/-- C9: reading a document with the unknown key no_such_key and the
recognized key hostname foobar yields the recoverable UnknownConfigKeys
error carrying the offending name while the returned config keeps the
parsed hostname, and per the error branch of main the error is non-fatal
by default and fatal only under strict validation. -/
theorem unknown_keys_recoverable_config :
    (readConfig unknownKeysDocument).1.hostname = "foobar" ∧
    (readConfig unknownKeysDocument).2 =
      some (ConfigError.unknownConfigKeys ["no_such_key"]) ∧
    isFatalConfigError (readConfig unknownKeysDocument).2 false = false ∧
    isFatalConfigError (readConfig unknownKeysDocument).2 true = true := by
  decide

/-- C10: reading a malformed document returns a non-nil error together
with the zero-value config, so no partially populated field survives a
parse failure. -/
theorem bad_config_zero_struct :
    readConfig YamlInput.malformed = (Config.zero, some ConfigError.parseFailure) ∧
    (readConfig YamlInput.malformed).2 ≠ none := by
  decide

end Veneur
